import Mathlib

/-! Verification of the electrum daemon control-plane core: the command
registry and precondition wrapper (commands.py) and the daemon's session
manager, instance lock and authenticated JSON-RPC front door (daemon.py),
translated as executable Lean definitions with theorems about them. -/

namespace Electrum

/-- Python dict lookup on an association list (keys unique by construction). -/
def dictGet {α : Type} : List (String × α) → String → Option α
  | [], _ => none
  | (k2, v) :: tl, k => if k2 = k then some v else dictGet tl k

/-- Python dict assignment: replaces the value when the key is present,
appends the pair otherwise. -/
def dictSet {α : Type} : List (String × α) → String → α → List (String × α)
  | [], k, v => [(k, v)]
  | (k2, v2) :: tl, k, v =>
    if k2 = k then (k, v) :: tl else (k2, v2) :: dictSet tl k v

/-- Python dict.pop with a default: removes the key when present, leaves the
dict unchanged otherwise. -/
def dictPop {α : Type} : List (String × α) → String → List (String × α)
  | [], _ => []
  | (k2, v) :: tl, k => if k2 = k then tl else (k2, v) :: dictPop tl k

/-- Split a character list at the first occurrence of a separator. -/
def splitAtChar (sep : Char) : List Char → Option (List Char × List Char)
  | [] => none
  | c :: tl =>
    if c = sep then some ([], tl)
    else
      match splitAtChar sep tl with
      | some (h, t) => some (c :: h, t)
      | none => none

/-- Python str.partition restricted to its head and tail components: the text
before the first separator and the text after it; when the separator is absent
the whole string is the head and the tail is empty. -/
def pyPartition (sep : Char) (s : String) : String × String :=
  match splitAtChar sep s.data with
  | some (h, t) => (String.mk h, String.mk t)
  | none => (s, "")

/-- os.path.basename: the part of the path after the last slash. -/
def basename (s : String) : String :=
  String.mk ((s.data.reverse.takeWhile (fun c => c ≠ '/')).reverse)

/-- Command descriptor (commands.py, class Command): name, the three
requirement flags decoded from the flag string, and the split of the function
parameters into required positionals and defaulted options. -/
structure Command where
  name : String
  requires_network : Bool
  requires_wallet : Bool
  requires_password : Bool
  params : List String
  options : List String
  deriving DecidableEq

/-- Command.__init__ (commands.py lines 73-89): the flags are membership of
the characters n, w, p in the flag string s; with ndefaults trailing default
values the last ndefaults of varnames become options, the rest params. -/
def mkCommand (funcName : String) (s : String) (varnames : List String)
    (ndefaults : Nat) : Command :=
  { name := funcName
    requires_network := s.data.contains 'n'
    requires_wallet := s.data.contains 'w'
    requires_password := s.data.contains 'p'
    params := if ndefaults = 0 then varnames
              else varnames.take (varnames.length - ndefaults)
    options := if ndefaults = 0 then []
               else varnames.drop (varnames.length - ndefaults) }

/-- A wallet session handle: an identity for the session object plus whether
the underlying store has a password (Abstract_Wallet.has_password). -/
structure Wallet where
  id : Nat
  hasPassword : Bool
  deriving DecidableEq

/-- Values produced by operation bodies and wrappers: an opaque payload or a
structured single-key error dict. -/
inductive RpcValue
  | payload (s : String)
  | errObj (msg : String)
  deriving DecidableEq

/-- func_wrapper built by the command decorator (commands.py lines 98-106):
before the body runs, a requires_wallet command with no bound wallet raises an
exception; a requires_password command with no supplied password consults
wallet.has_password (an attribute error when the wallet is None, reached only
for commands that require a password but not a wallet) and returns the
structured Password required dict when the wallet is protected. -/
def func_wrapper (c : Command) (wallet : Option Wallet) (password : Option String)
    (body : Option Wallet → Option String → Except String RpcValue) :
    Except String RpcValue :=
  if c.requires_wallet && wallet.isNone then
    Except.error "wallet not loaded. Use \x27electrum daemon load_wallet\x27"
  else if c.requires_password && password.isNone then
    match wallet with
    | none => Except.error "AttributeError: NoneType object has no attribute has_password"
    | some w =>
      if w.hasPassword then Except.ok (RpcValue.errObj "Password required")
      else body wallet password
  else body wallet password

/-- The wallet-not-loaded message built by Daemon.run_cmdline (daemon.py line
420) from the basename of the standardized wallet path. -/
def walletNotLoadedCmdMsg (path : String) : String :=
  "Wallet \x22" ++ basename path ++ "\x22 is not loaded. Use \x22electrum load_wallet\x22"

/-- Daemon.run_cmdline (daemon.py lines 406-437), dispatch part: for a
requires_wallet command the wallet is looked up under the standardized path
and a missing wallet short-circuits to a structured error dict before the
command runs; otherwise the command runs through its wrapper, with wallet None
when the command does not require one. std stands for util.standardize_path. -/
def run_cmdline (std : String → String) (wallets : List (String × Wallet))
    (cmd : Command) (walletPath : String) (password : Option String)
    (body : Option Wallet → Option String → Except String RpcValue) :
    Except String RpcValue :=
  if cmd.requires_wallet then
    match dictGet wallets (std walletPath) with
    | none => Except.ok (RpcValue.errObj (walletNotLoadedCmdMsg (std walletPath)))
    | some w => func_wrapper cmd (some w) password body
  else
    func_wrapper cmd none password body

/-- The registration step of the command decorator (commands.py lines 92-96):
a plain dict assignment of the freshly built descriptor into known_commands. -/
def registerCommand (reg : List (String × Command)) (c : Command) :
    List (String × Command) :=
  dictSet reg c.name c

/-- Trace events for the session manager's collaborator calls and map
mutations, recorded in source order. -/
inductive Ev
  | startNetwork (w : Wallet)
  | stopThreads (w : Wallet)
  | mapInsert (path : String) (w : Wallet)
  | mapRemove (path : String)
  deriving DecidableEq

/-- The daemon state the session manager mutates: the path-to-wallet map
self.wallets and the self.wallet field set by load_wallet. -/
structure DaemonState where
  wallets : List (String × Wallet)
  walletField : Option Wallet
  deriving DecidableEq

/-- WalletStorage as consulted by Daemon.load_wallet: the storage predicates
the daemon reads, with acceptsPassword giving the set of passwords under which
the store decrypts. -/
structure WalletStorage where
  file_exists : Bool
  is_encrypted : Bool
  acceptsPassword : String → Bool
  requires_split : Bool
  requires_upgrade : Bool
  get_action : Bool

/-- Modelled from the spec: WalletStorage.decrypt lives in storage.py, which
is not among the sources here. The spec says decryption requires the password,
so decrypt fails on a password the store does not accept; the failure is a
raised InvalidPassword exception, since Daemon.load_wallet passes decrypt no
channel through which a failure could be turned into a plain return value. -/
def WalletStorage.decrypt (st : WalletStorage) (pw : String) : Except String Unit :=
  if st.acceptsPassword pw then Except.ok () else Except.error "InvalidPassword"

instance {ε α : Type} [DecidableEq ε] [DecidableEq α] : DecidableEq (Except ε α) :=
  fun a b =>
    match a, b with
    | Except.ok x, Except.ok y =>
      if h : x = y then isTrue (by rw [h]) else isFalse (by intro hc; cases hc; exact h rfl)
    | Except.error x, Except.error y =>
      if h : x = y then isTrue (by rw [h]) else isFalse (by intro hc; cases hc; exact h rfl)
    | Except.ok _, Except.error _ => isFalse (by intro hc; cases hc)
    | Except.error _, Except.ok _ => isFalse (by intro hc; cases hc)

/-- Python truthiness of the password argument in load_wallet: None and the
empty string are both falsy. -/
def isFalsyPassword : Option String → Bool
  | none => true
  | some p => p == ""

/-- Outcome of Daemon.load_wallet: the returned value or raised exception, the
daemon state afterwards, and the trace of collaborator calls and mutations. -/
structure LoadResult where
  result : Except String (Option Wallet)
  state : DaemonState
  events : List Ev
  deriving DecidableEq

/-- Daemon.load_wallet (daemon.py lines 356-379). std stands for
util.standardize_path, getStorage for the WalletStorage constructor on a path,
mkWallet for the Wallet(storage) constructor. An already-open path returns the
existing session at once; then the storage checks run in source order; on full
success the wallet is constructed, registered with the network, and only then
inserted into the wallets map. -/
def load_wallet (std : String → String) (getStorage : String → WalletStorage)
    (mkWallet : String → Wallet) (s : DaemonState) (path0 : String)
    (password : Option String) : LoadResult :=
  let path := std path0
  match dictGet s.wallets path with
  | some w => ⟨Except.ok (some w), s, []⟩
  | none =>
    let storage := getStorage path
    let proceed : LoadResult :=
      if storage.requires_split then ⟨Except.ok none, s, []⟩
      else if storage.requires_upgrade then ⟨Except.ok none, s, []⟩
      else if storage.get_action then ⟨Except.ok none, s, []⟩
      else
        let w := mkWallet path
        ⟨Except.ok (some w), ⟨dictSet s.wallets path w, some w⟩,
          [Ev.startNetwork w, Ev.mapInsert path w]⟩
    if storage.file_exists = false then ⟨Except.ok none, s, []⟩
    else if storage.is_encrypted then
      if isFalsyPassword password then ⟨Except.ok none, s, []⟩
      else
        match storage.decrypt (password.getD "") with
        | Except.error e => ⟨Except.error e, s, []⟩
        | Except.ok _ => proceed
    else proceed

/-- Outcome of Daemon.stop_wallet: whether a wallet was found, the state
afterwards, and the trace of the pop and the stop of the background threads. -/
structure StopResult where
  found : Bool
  state : DaemonState
  events : List Ev
  deriving DecidableEq

/-- Daemon.stop_wallet (daemon.py lines 397-404): pops the standardized path
from the wallets map (a no-op on the map when absent), and when a wallet was
popped stops its background threads afterwards and returns True. -/
def stop_wallet (std : String → String) (s : DaemonState) (path0 : String) :
    StopResult :=
  let path := std path0
  match dictGet s.wallets path with
  | none => ⟨false, ⟨dictPop s.wallets path, s.walletField⟩, []⟩
  | some w =>
    ⟨true, ⟨dictPop s.wallets path, s.walletField⟩,
      [Ev.mapRemove path, Ev.stopThreads w]⟩

/-- Whether every map-removal event in a trace is preceded by some earlier
stop-threads event; the accumulator records whether a stop has been seen. -/
def removalPrecededByStop : Bool → List Ev → Bool
  | _, [] => true
  | _, Ev.stopThreads _ :: tl => removalPrecededByStop true tl
  | seen, Ev.mapRemove _ :: tl => seen && removalPrecededByStop seen tl
  | seen, _ :: tl => removalPrecededByStop seen tl

/-- Whether every map-insert event in a trace is preceded by an earlier
network registration of the same wallet; the accumulator collects the wallets
already registered. -/
def insertPrecededByStart : List Wallet → List Ev → Bool
  | _, [] => true
  | started, Ev.startNetwork w :: tl => insertPrecededByStart (w :: started) tl
  | started, Ev.mapInsert _ w :: tl =>
    started.contains w && insertPrecededByStart started tl
  | started, _ :: tl => insertPrecededByStart started tl

/-- Parsed content of the daemon lockfile: ast.literal_eval either yields the
pair of the bound (host, port) and the creation time, or raises on partially
written or otherwise corrupt text. -/
inductive LockContent
  | corrupt
  | entry (host : String) (port : Nat) (ctime : Nat)
  deriving DecidableEq

/-- Outcome of the request probe loop: the RPC call answered, DaemonNotRunning
was raised, or the modelling fuel ran out. -/
inductive ProbeResult
  | ok
  | notRunning
  | outOfFuel
  deriving DecidableEq

/-- The request function (daemon.py lines 88-115) reduced to its control flow:
read and parse the lockfile, any failure raising DaemonNotRunning; try the RPC
call against the recorded address; on connection failure raise DaemonNotRunning
when the recorded creation time is falsy or older than the one second grace
period, else sleep one second and retry. reachable tells whether a daemon
answers at a given host and port; now is the clock, advanced across sleeps. -/
def request_probe (lock : Option LockContent) (reachable : String → Nat → Bool) :
    Nat → Nat → ProbeResult
  | 0, _ => ProbeResult.outOfFuel
  | fuel + 1, now =>
    match lock with
    | none => ProbeResult.notRunning
    | some LockContent.corrupt => ProbeResult.notRunning
    | some (LockContent.entry host port ctime) =>
      if reachable host port then ProbeResult.ok
      else if ctime = 0 ∨ ctime + 1 < now then ProbeResult.notRunning
      else request_probe lock reachable fuel (now + 1)

/-- Outcome of get_file_descriptor: fd means the exclusive create succeeded
and the caller is the sole daemon; defer means an existing daemon answered the
probe, so the caller returns None and forwards to it. -/
inductive AcquireResult
  | fd
  | defer
  | outOfFuel
  deriving DecidableEq

/-- get_file_descriptor (daemon.py lines 67-84): attempt the O_EXCL exclusive
create of the lockfile, succeeding at once when the file is absent; when it
exists, probe with request ping; a ping answer means an existing daemon, while
a DaemonNotRunning outcome removes the lockfile and retries the create. -/
def get_file_descriptor (reachable : String → Nat → Bool) (probeFuel : Nat) :
    Nat → Nat → Option LockContent → AcquireResult
  | 0, _, _ => AcquireResult.outOfFuel
  | fuel + 1, now, lock =>
    match lock with
    | none => AcquireResult.fd
    | some c =>
      match request_probe (some c) reachable probeFuel now with
      | ProbeResult.ok => AcquireResult.defer
      | ProbeResult.notRunning => get_file_descriptor reachable probeFuel fuel now none
      | ProbeResult.outOfFuel => AcquireResult.outOfFuel

/-- The exception classes raised by Daemon.authenticate. -/
inductive AuthError
  | credentialsMissing
  | unsupportedType
  | invalidCredentials
  deriving DecidableEq

/-- util.constant_time_compare: timing-insensitive string equality, the
hmac.compare_digest of the two strings. -/
def constant_time_compare (a b : String) : Bool := a == b

/-- Outcome of Daemon.authenticate: success or the raised error, and whether
the fixed 50 millisecond throttle delay was taken before raising. -/
structure AuthOutcome where
  result : Except AuthError Unit
  slept : Bool
  deriving DecidableEq

/-- Daemon.authenticate (daemon.py lines 285-301). An empty configured rpc
password disables authentication before any header is read. The Authorization
header, when present, is split at the first space into the scheme and the
encoded credentials; b64decode stands for base64 decoding of the encoded part;
the decoded text splits at the first colon into username and password, both
compared in constant time; a mismatch sleeps 50 milliseconds and raises. -/
def authenticate (rpc_user rpc_password : String) (authHeader : Option String)
    (b64decode : String → String) : AuthOutcome :=
  if rpc_password = "" then ⟨Except.ok (), false⟩
  else
    match authHeader with
    | none => ⟨Except.error AuthError.credentialsMissing, false⟩
    | some auth_string =>
      let parts := pyPartition ' ' auth_string
      if parts.1 ≠ "Basic" then ⟨Except.error AuthError.unsupportedType, false⟩
      else
        let credentials := b64decode parts.2
        let creds := pyPartition ':' credentials
        if constant_time_compare creds.1 rpc_user
            && constant_time_compare creds.2 rpc_password then
          ⟨Except.ok (), false⟩
        else ⟨Except.error AuthError.invalidCredentials, true⟩

/-- Outcome of Daemon.handle: the transport status and body of the response
(200 abstracting the dispatch result), whether the JSON-RPC dispatch was
reached, and whether the throttle delay was taken. -/
structure HandleResult where
  status : Nat
  body : String
  dispatched : Bool
  slept : Bool
  deriving DecidableEq

/-- Daemon.handle (daemon.py lines 303-316): authenticate first; a raised
AuthenticationError becomes the Forbidden 403 transport response and the
JSON-RPC dispatch is never reached; otherwise the request body is dispatched. -/
def handle (rpc_user rpc_password : String) (authHeader : Option String)
    (b64decode : String → String) : HandleResult :=
  let a := authenticate rpc_user rpc_password authHeader b64decode
  match a.result with
  | Except.error _ => ⟨403, "Forbidden", false, a.slept⟩
  | Except.ok _ => ⟨200, "", true, a.slept⟩

/-- The rpcuser and rpcpassword keys of the configuration. -/
structure RpcConfig where
  rpcuser : Option String
  rpcpassword : Option String
  deriving DecidableEq

/-- get_rpc_credentials (daemon.py lines 118-134): when either key is unset,
the user name user and a freshly generated random password are stored and
returned; otherwise the configured pair is returned unchanged — an empty
configured password is kept as is, only logging that authentication is
disabled. genPassword stands for the generated random password. -/
def get_rpc_credentials (cfg : RpcConfig) (genPassword : String) :
    (String × String) × RpcConfig :=
  match cfg.rpcuser, cfg.rpcpassword with
  | some u, some p => ((u, p), cfg)
  | _, _ => (("user", genPassword), ⟨some "user", some genPassword⟩)

theorem dictPop_of_get_none {α : Type} (m : List (String × α)) (k : String)
    (h : dictGet m k = none) : dictPop m k = m := by
  induction m with
  | nil => rfl
  | cons hd tl ih =>
    obtain ⟨k2, v⟩ := hd
    by_cases hk : k2 = k
    · simp [dictGet, hk] at h
    · simp only [dictGet, if_neg hk] at h
      simp [dictPop, hk, ih h]

theorem dictGet_dictSet_self {α : Type} (m : List (String × α)) (k : String)
    (v : α) : dictGet (dictSet m k v) k = some v := by
  induction m with
  | nil => simp [dictSet, dictGet]
  | cons hd tl ih =>
    obtain ⟨k2, v2⟩ := hd
    by_cases hk : k2 = k
    · simp [dictSet, dictGet, hk]
    · simp [dictSet, dictGet, hk, ih]

theorem dictGet_dictSet_other {α : Type} (m : List (String × α)) (k k2 : String)
    (v : α) (hne : k2 ≠ k) : dictGet (dictSet m k v) k2 = dictGet m k2 := by
  have hkk : k ≠ k2 := Ne.symm hne
  induction m with
  | nil => simp [dictSet, dictGet, hkk]
  | cons hd tl ih =>
    obtain ⟨k3, v3⟩ := hd
    by_cases hk : k3 = k
    · subst hk
      simp [dictSet, dictGet, hkk]
    · simp [dictSet, dictGet, hk, ih]

/-- An example wallet-requiring command, as the decorator builds it. -/
def cmdGetBalance : Command := mkCommand "getbalance" "w" [] 0

/-- An example password-and-wallet-requiring command. -/
def cmdSignMessage : Command := mkCommand "signmessage" "wp" ["address", "message"] 0

/-- A body that raises if it is ever entered, the detector the spec suggests
for checking that a gated operation body never runs. -/
def raisingBody : Option Wallet → Option String → Except String RpcValue :=
  fun _ _ => Except.error "body entered"

/-- C9: counterexample — registering a second command under an already present
name is not an error: the dict assignment silently replaces the first
descriptor with the second, and the registry afterwards holds the second. -/
theorem C9_counterexample :
    dictGet (registerCommand (registerCommand [] (mkCommand "foo" "" [] 0))
        (mkCommand "foo" "n" [] 0)) "foo" = some (mkCommand "foo" "n" [] 0)
    ∧ mkCommand "foo" "n" [] 0 ≠ mkCommand "foo" "" [] 0 := by
  exact ⟨rfl, by decide⟩

/-- C9 (amended): registration is a plain dict assignment — the descriptor
registered last always wins under its name, every other name is untouched, and
a duplicate name is silently replaced rather than being an error. -/
theorem C9_amended (reg : List (String × Command)) (c : Command) :
    dictGet (registerCommand reg c) c.name = some c
    ∧ ∀ k, k ≠ c.name → dictGet (registerCommand reg c) k = dictGet reg k := by
  constructor
  · exact dictGet_dictSet_self reg c.name c
  · intro k hk
    exact dictGet_dictSet_other reg c.name k c hk

/-- C9 witness: the amended replacement semantics at a concrete registry. -/
theorem C9_witness :
    dictGet (registerCommand [("bar", cmdGetBalance)] cmdSignMessage)
        "signmessage" = some cmdSignMessage
    ∧ dictGet (registerCommand [("bar", cmdGetBalance)] cmdSignMessage) "bar"
        = dictGet [("bar", cmdGetBalance)] "bar" := by
  refine ⟨(C9_amended [("bar", cmdGetBalance)] cmdSignMessage).1, ?_⟩
  exact (C9_amended [("bar", cmdGetBalance)] cmdSignMessage).2 "bar" (by decide)

/-- C6: a requires_password command invoked against a bound password-protected
wallet session with no supplied password returns the structured Password
required error dict — and it does so for every body, so the body is never
invoked. -/
theorem C6_password_required (c : Command) (w : Wallet)
    (hp : c.requires_password = true) (hw : w.hasPassword = true) :
    ∀ body, func_wrapper c (some w) none body
      = Except.ok (RpcValue.errObj "Password required") := by
  intro body
  simp [func_wrapper, hp, hw]

/-- C6 witness: the password gate at a concrete command and wallet. -/
theorem C6_witness :
    func_wrapper cmdSignMessage (some ⟨2, true⟩) none raisingBody
      = Except.ok (RpcValue.errObj "Password required") :=
  C6_password_required cmdSignMessage ⟨2, true⟩ (by decide) rfl raisingBody

/-- C10: an empty configured rpc password is handed back unchanged by
get_rpc_credentials and disables authentication — authenticate succeeds
without reading any header and without delay, and every request, including one
with no Authorization header at all, is dispatched. -/
theorem C10_empty_password_disables_auth (u genPw : String)
    (authHeader : Option String) (b64 : String → String) :
    get_rpc_credentials ⟨some u, some ""⟩ genPw = ((u, ""), ⟨some u, some ""⟩)
    ∧ authenticate u "" authHeader b64 = ⟨Except.ok (), false⟩
    ∧ handle u "" authHeader b64 = ⟨200, "", true, false⟩ := by
  refine ⟨rfl, ?_, ?_⟩ <;> simp [authenticate, handle]

/-- C1: counterexample — a requires_wallet command invoked through its wrapper
(the form under which every command is registered as a direct JSON-RPC method,
with the daemon's shared Commands instance holding wallet None) raises the
wallet-not-loaded exception instead of returning a structured error result. -/
theorem C1_counterexample :
    func_wrapper cmdGetBalance none none raisingBody
      = Except.error "wallet not loaded. Use \x27electrum daemon load_wallet\x27"
    ∧ (func_wrapper cmdGetBalance none none raisingBody).isOk = false := by
  exact ⟨rfl, rfl⟩

/-- C1 (amended): through the run_cmdline dispatch path a requires_wallet
command with no loaded wallet for the standardized path yields the structured
wallet-not-loaded error dict, identically for every body, so the body is never
entered; the wrapped command invoked directly with no bound wallet instead
raises the wallet-not-loaded exception, also identically for every body. -/
theorem C1_amended (std : String → String) (wallets : List (String × Wallet))
    (cmd : Command) (path : String) (password : Option String)
    (hw : cmd.requires_wallet = true)
    (hnone : dictGet wallets (std path) = none) :
    (∀ body, run_cmdline std wallets cmd path password body
        = Except.ok (RpcValue.errObj (walletNotLoadedCmdMsg (std path))))
    ∧ (∀ body, func_wrapper cmd none password body
        = Except.error "wallet not loaded. Use \x27electrum daemon load_wallet\x27") := by
  constructor
  · intro body
    simp [run_cmdline, hw, hnone]
  · intro body
    simp [func_wrapper, hw]

/-- C1 witness: the amended behavior at a concrete command, path and body. -/
theorem C1_witness :
    run_cmdline id [] cmdGetBalance "/wallets/default_wallet" none raisingBody
      = Except.ok (RpcValue.errObj (walletNotLoadedCmdMsg "/wallets/default_wallet")) :=
  (C1_amended id [] cmdGetBalance "/wallets/default_wallet" none (by decide) rfl).1
    raisingBody

theorem authenticate_slept_iff_invalid (rpc_user rpc_password : String)
    (authHeader : Option String) (b64 : String → String) :
    (authenticate rpc_user rpc_password authHeader b64).slept = true ↔
      (authenticate rpc_user rpc_password authHeader b64).result
        = Except.error AuthError.invalidCredentials := by
  unfold authenticate
  split
  · simp
  · cases authHeader with
    | none => simp
    | some a =>
      simp only []
      split
      · simp
      · split <;> simp

/-- C5: with authentication in force (a non-empty configured rpc password),
missing or invalid Basic credentials make handle produce the transport-level
403 Forbidden response with the JSON-RPC dispatch never reached; an
invalid-credential attempt additionally takes the fixed throttle delay before
the response. -/
theorem C5_auth_403 (rpc_user rpc_password : String) (authHeader : Option String)
    (b64 : String → String) (hpw : rpc_password ≠ "") :
    (authHeader = none →
      handle rpc_user rpc_password authHeader b64 = ⟨403, "Forbidden", false, false⟩)
    ∧ (∀ e, (authenticate rpc_user rpc_password authHeader b64).result
          = Except.error e →
        handle rpc_user rpc_password authHeader b64
          = ⟨403, "Forbidden", false,
              (authenticate rpc_user rpc_password authHeader b64).slept⟩)
    ∧ ((authenticate rpc_user rpc_password authHeader b64).result
          = Except.error AuthError.invalidCredentials →
        (handle rpc_user rpc_password authHeader b64).slept = true) := by
  refine ⟨?_, ?_, ?_⟩
  · intro hh
    subst hh
    simp [handle, authenticate, hpw]
  · intro e he
    simp [handle, he]
  · intro he
    simp [handle, he]
    exact (authenticate_slept_iff_invalid rpc_user rpc_password authHeader b64).2 he

/-- C5 witness: a concrete request with a well-formed Basic header carrying a
wrong password is refused with 403, never dispatched, after the delay. -/
theorem C5_witness :
    handle "user" "pw" (some "Basic eA") (fun _ => "user:wrong")
      = ⟨403, "Forbidden", false, true⟩ :=
  (C5_auth_403 "user" "pw" (some "Basic eA") (fun _ => "user:wrong")
      (by decide)).2.1 AuthError.invalidCredentials rfl

/-- C7: load_wallet is idempotent — when the standardized path already has an
open session it returns exactly that session object, leaves the whole daemon
state (the wallets map and the wallet field) unchanged, and performs no
collaborator call at all, in particular no second network registration. -/
theorem C7_idempotent (std : String → String) (getStorage : String → WalletStorage)
    (mkWallet : String → Wallet) (s : DaemonState) (path : String)
    (password : Option String) (w : Wallet)
    (h : dictGet s.wallets (std path) = some w) :
    load_wallet std getStorage mkWallet s path password
      = ⟨Except.ok (some w), s, []⟩ := by
  unfold load_wallet
  simp [h]

/-- An example wallet session used in concrete instances below. -/
def w0 : Wallet := ⟨0, false⟩

/-- An example storage for a plain existing, unencrypted wallet file. -/
def plainStorage : WalletStorage :=
  { file_exists := true
    is_encrypted := false
    acceptsPassword := fun _ => true
    requires_split := false
    requires_upgrade := false
    get_action := false }

/-- An example storage for an encrypted wallet file accepting one password. -/
def encStorage : WalletStorage :=
  { file_exists := true
    is_encrypted := true
    acceptsPassword := fun p => p == "hunter2"
    requires_split := false
    requires_upgrade := false
    get_action := false }

/-- An example storage whose backing file does not exist. -/
def missingStorage : WalletStorage :=
  { file_exists := false
    is_encrypted := false
    acceptsPassword := fun _ => false
    requires_split := false
    requires_upgrade := false
    get_action := false }

/-- C7 witness: reopening an already-open path at concrete inputs. -/
theorem C7_witness :
    load_wallet id (fun _ => plainStorage) (fun _ => ⟨7, false⟩)
        ⟨[("/w/a", w0)], some w0⟩ "/w/a" none
      = ⟨Except.ok (some w0), ⟨[("/w/a", w0)], some w0⟩, []⟩ :=
  C7_idempotent id (fun _ => plainStorage) (fun _ => ⟨7, false⟩)
    ⟨[("/w/a", w0)], some w0⟩ "/w/a" none w0 rfl

/-- C3: counterexample — on a found session, stop_wallet removes the session
from the wallets map first and only afterwards stops its background threads,
so the stop does not precede the removal as the claim states. -/
theorem C3_counterexample :
    (stop_wallet id ⟨[("/w/a", w0)], some w0⟩ "/w/a").found = true
    ∧ (stop_wallet id ⟨[("/w/a", w0)], some w0⟩ "/w/a").events
        = [Ev.mapRemove "/w/a", Ev.stopThreads w0]
    ∧ removalPrecededByStop false
        (stop_wallet id ⟨[("/w/a", w0)], some w0⟩ "/w/a").events = false := by
  exact ⟨rfl, rfl, rfl⟩

/-- C3 (amended): stop_wallet returns true iff a session for the standardized
path was found; with no session it returns false and leaves the state
unchanged with no activity at all; with a session it removes the session from
the map first and stops its background threads afterwards. -/
theorem C3_amended (std : String → String) (s : DaemonState) (path : String) :
    (dictGet s.wallets (std path) = none →
      stop_wallet std s path = ⟨false, s, []⟩)
    ∧ (∀ w, dictGet s.wallets (std path) = some w →
        stop_wallet std s path
          = ⟨true, ⟨dictPop s.wallets (std path), s.walletField⟩,
              [Ev.mapRemove (std path), Ev.stopThreads w]⟩) := by
  constructor
  · intro h
    unfold stop_wallet
    simp [h, dictPop_of_get_none s.wallets (std path) h]
  · intro w h
    unfold stop_wallet
    simp [h]

/-- C3 witness: closing a path with no open session at concrete inputs. -/
theorem C3_witness :
    stop_wallet id ⟨[("/w/a", w0)], some w0⟩ "/w/b"
      = ⟨false, ⟨[("/w/a", w0)], some w0⟩, []⟩ :=
  (C3_amended id ⟨[("/w/a", w0)], some w0⟩ "/w/b").1 rfl

/-- C2: counterexample — opening an encrypted store with a wrong (non-empty)
password does not return None: the InvalidPassword exception raised by the
decryption propagates out of load_wallet. -/
theorem C2_counterexample :
    (load_wallet id (fun _ => encStorage) (fun _ => ⟨1, true⟩) ⟨[], none⟩
        "/w/x" (some "wrong")).result = Except.error "InvalidPassword"
    ∧ (load_wallet id (fun _ => encStorage) (fun _ => ⟨1, true⟩) ⟨[], none⟩
        "/w/x" (some "wrong")).result ≠ Except.ok none := by
  exact ⟨rfl, by decide⟩

/-- C2 (amended): for a path with no session already open — a missing backing
file returns None; an encrypted store with an absent (or empty, hence falsy)
password returns None; a store needing a split returns None, as does a store
needing an upgrade; but an encrypted store with a wrong non-empty password
propagates the InvalidPassword exception instead of returning None. In every
one of these cases the daemon state is unchanged and no collaborator is
called. -/
theorem C2_amended (std : String → String) (getStorage : String → WalletStorage)
    (mkWallet : String → Wallet) (s : DaemonState) (path : String)
    (password : Option String) (st : WalletStorage)
    (hst : getStorage (std path) = st)
    (hopen : dictGet s.wallets (std path) = none) :
    (st.file_exists = false →
      load_wallet std getStorage mkWallet s path password = ⟨Except.ok none, s, []⟩)
    ∧ (st.file_exists = true → st.is_encrypted = true →
       isFalsyPassword password = true →
      load_wallet std getStorage mkWallet s path password = ⟨Except.ok none, s, []⟩)
    ∧ (∀ p, st.file_exists = true → st.is_encrypted = true → password = some p →
       (p == "") = false → st.acceptsPassword p = false →
      load_wallet std getStorage mkWallet s path password
        = ⟨Except.error "InvalidPassword", s, []⟩)
    ∧ (st.file_exists = true →
       (st.is_encrypted = true →
         isFalsyPassword password = false
         ∧ st.acceptsPassword (password.getD "") = true) →
       st.requires_split = true →
      load_wallet std getStorage mkWallet s path password = ⟨Except.ok none, s, []⟩)
    ∧ (st.file_exists = true →
       (st.is_encrypted = true →
         isFalsyPassword password = false
         ∧ st.acceptsPassword (password.getD "") = true) →
       st.requires_split = false → st.requires_upgrade = true →
      load_wallet std getStorage mkWallet s path password = ⟨Except.ok none, s, []⟩) := by
  refine ⟨?_, ?_, ?_, ?_, ?_⟩
  · intro hf
    simp [load_wallet, hopen, hst, hf]
  · intro hf he hfp
    simp [load_wallet, hopen, hst, hf, he, hfp]
  · intro p hf he hp hpe hacc
    subst hp
    simp [load_wallet, hopen, hst, hf, he, isFalsyPassword, hpe,
      WalletStorage.decrypt, hacc]
  · intro hf henc hsplit
    rcases hb : st.is_encrypted with _ | _
    · simp [load_wallet, hopen, hst, hf, hb, hsplit]
    · obtain ⟨hfp, hacc⟩ := henc hb
      simp [load_wallet, hopen, hst, hf, hb, hfp, hacc,
        WalletStorage.decrypt, hsplit]
  · intro hf henc hsplit hupg
    rcases hb : st.is_encrypted with _ | _
    · simp [load_wallet, hopen, hst, hf, hb, hsplit, hupg]
    · obtain ⟨hfp, hacc⟩ := henc hb
      simp [load_wallet, hopen, hst, hf, hb, hfp, hacc,
        WalletStorage.decrypt, hsplit, hupg]

/-- C2 witness: a missing backing file returns None at concrete inputs. -/
theorem C2_witness :
    load_wallet id (fun _ => missingStorage) (fun _ => ⟨1, true⟩) ⟨[], none⟩
        "/w/y" none = ⟨Except.ok none, ⟨[], none⟩, []⟩ :=
  (C2_amended id (fun _ => missingStorage) (fun _ => ⟨1, true⟩) ⟨[], none⟩
      "/w/y" none missingStorage rfl rfl).1 rfl

theorem load_wallet_spec (std : String → String) (getStorage : String → WalletStorage)
    (mkWallet : String → Wallet) (s : DaemonState) (path : String)
    (password : Option String) :
    ((load_wallet std getStorage mkWallet s path password).state = s
      ∧ (load_wallet std getStorage mkWallet s path password).events = [])
    ∨ (load_wallet std getStorage mkWallet s path password
        = ⟨Except.ok (some (mkWallet (std path))),
           ⟨dictSet s.wallets (std path) (mkWallet (std path)),
            some (mkWallet (std path))⟩,
           [Ev.startNetwork (mkWallet (std path)),
            Ev.mapInsert (std path) (mkWallet (std path))]⟩
      ∧ dictGet s.wallets (std path) = none
      ∧ (getStorage (std path)).file_exists = true
      ∧ (getStorage (std path)).requires_split = false
      ∧ (getStorage (std path)).requires_upgrade = false
      ∧ (getStorage (std path)).get_action = false
      ∧ ((getStorage (std path)).is_encrypted = true →
          isFalsyPassword password = false
          ∧ (getStorage (std path)).acceptsPassword (password.getD "") = true)) := by
  rcases hget : dictGet s.wallets (std path) with _ | w
  · rcases hf : (getStorage (std path)).file_exists with _ | _
    · left
      constructor <;> simp [load_wallet, hget, hf]
    · rcases he : (getStorage (std path)).is_encrypted with _ | _
      · rcases h1 : (getStorage (std path)).requires_split with _ | _
        · rcases h2 : (getStorage (std path)).requires_upgrade with _ | _
          · rcases h3 : (getStorage (std path)).get_action with _ | _
            · right
              refine ⟨?_, rfl, rfl, rfl, rfl, rfl, ?_⟩
              · simp [load_wallet, hget, hf, he, h1, h2, h3]
              · intro hc
                exact Bool.noConfusion hc
            · left
              constructor <;> simp [load_wallet, hget, hf, he, h1, h2, h3]
          · left
            constructor <;> simp [load_wallet, hget, hf, he, h1, h2]
        · left
          constructor <;> simp [load_wallet, hget, hf, he, h1]
      · rcases hfp : isFalsyPassword password with _ | _
        · rcases hacc : (getStorage (std path)).acceptsPassword (password.getD "")
            with _ | _
          · left
            constructor <;>
              simp [load_wallet, hget, hf, he, hfp, WalletStorage.decrypt, hacc]
          · rcases h1 : (getStorage (std path)).requires_split with _ | _
            · rcases h2 : (getStorage (std path)).requires_upgrade with _ | _
              · rcases h3 : (getStorage (std path)).get_action with _ | _
                · right
                  refine ⟨?_, rfl, rfl, rfl, rfl, rfl, fun _ => ⟨rfl, rfl⟩⟩
                  simp [load_wallet, hget, hf, he, hfp, WalletStorage.decrypt,
                    hacc, h1, h2, h3]
                · left
                  constructor <;>
                    simp [load_wallet, hget, hf, he, hfp, WalletStorage.decrypt,
                      hacc, h1, h2, h3]
              · left
                constructor <;>
                  simp [load_wallet, hget, hf, he, hfp, WalletStorage.decrypt,
                    hacc, h1, h2]
            · left
              constructor <;>
                simp [load_wallet, hget, hf, he, hfp, WalletStorage.decrypt,
                  hacc, h1]
        · left
          constructor <;> simp [load_wallet, hget, hf, he, hfp]
  · left
    constructor <;> simp [load_wallet, hget]

/-- C8: load_wallet never exposes a half-initialized session — every map
insert in its trace is preceded by the network registration of the same
wallet, and either the wallets map is left entirely unchanged or exactly one
wallet is inserted, after the file existence check, the decryption when the
store is encrypted, every structural check, and the network registration have
all succeeded, with that wallet also the returned session. -/
theorem C8_insert_only_after_setup (std : String → String)
    (getStorage : String → WalletStorage) (mkWallet : String → Wallet)
    (s : DaemonState) (path : String) (password : Option String) :
    insertPrecededByStart []
        (load_wallet std getStorage mkWallet s path password).events = true
    ∧ ((load_wallet std getStorage mkWallet s path password).state.wallets
          = s.wallets
      ∨ ∃ w, (load_wallet std getStorage mkWallet s path password).events
            = [Ev.startNetwork w, Ev.mapInsert (std path) w]
        ∧ (load_wallet std getStorage mkWallet s path password).state.wallets
            = dictSet s.wallets (std path) w
        ∧ (load_wallet std getStorage mkWallet s path password).result
            = Except.ok (some w)
        ∧ (getStorage (std path)).file_exists = true
        ∧ (getStorage (std path)).requires_split = false
        ∧ (getStorage (std path)).requires_upgrade = false
        ∧ (getStorage (std path)).get_action = false
        ∧ ((getStorage (std path)).is_encrypted = true →
            isFalsyPassword password = false
            ∧ (getStorage (std path)).acceptsPassword (password.getD "") = true)) := by
  rcases load_wallet_spec std getStorage mkWallet s path password with
    ⟨hs, he⟩ | ⟨heq, hget, hf, h1, h2, h3, henc⟩
  · constructor
    · rw [he]
      rfl
    · left
      rw [hs]
  · constructor
    · rw [heq]
      simp [insertPrecededByStart]
    · right
      exact ⟨mkWallet (std path), by rw [heq], by rw [heq], by rw [heq],
        hf, h1, h2, h3, henc⟩

/-- C4: the instance-lock acquisition algorithm — an absent lockfile means the
exclusive create succeeds and the caller is the sole daemon; a lock whose
recorded daemon answers the probe makes the caller defer to it; a probe
failure on a lock whose recorded creation time is past the one second grace
period removes the lock, and the retried exclusive create succeeds; corrupt or
partially written lockfile content makes the probe report no running daemon,
and the lock is likewise removed and the create retried successfully. -/
theorem C4_lock_algorithm (reachable : String → Nat → Bool) (host : String)
    (port ctime now : Nat) :
    get_file_descriptor reachable 1 1 now none = AcquireResult.fd
    ∧ (reachable host port = true →
        get_file_descriptor reachable 1 1 now
            (some (LockContent.entry host port ctime)) = AcquireResult.defer)
    ∧ (reachable host port = false → ctime + 1 < now →
        get_file_descriptor reachable 1 2 now
            (some (LockContent.entry host port ctime)) = AcquireResult.fd)
    ∧ request_probe (some LockContent.corrupt) reachable 1 now
        = ProbeResult.notRunning
    ∧ get_file_descriptor reachable 1 2 now (some LockContent.corrupt)
        = AcquireResult.fd := by
  refine ⟨rfl, ?_, ?_, rfl, rfl⟩
  · intro hr
    simp [get_file_descriptor, request_probe, hr]
  · intro hr hc
    simp [get_file_descriptor, request_probe, hr, hc]

/-- C4 witness: an unreachable recorded daemon with a stale creation time is
evicted and the caller acquires the lock, at concrete inputs. -/
theorem C4_witness :
    get_file_descriptor (fun _ _ => false) 1 2 10
        (some (LockContent.entry "localhost" 7777 2)) = AcquireResult.fd :=
  ((C4_lock_algorithm (fun _ _ => false) "localhost" 7777 2 10).2.2.1) rfl
    (by decide)

end Electrum
